import Mathlib

/-!
Verification development for the greed_bot repository.

The Python source is shallowly embedded:
* instants are minutes since an arbitrary epoch, as `Int`; a timezone is its
  fixed offset from UTC in minutes, and the IANA database lookup performed by
  `ZoneInfo(name)` is a parameter `tzdb : String → Option Int` (`none` models
  a `ZoneInfoNotFoundError`);
* a `datetime.date()` value is the day index `t / 1440`, `.hour` and
  `.minute` come from `t % 1440`;
* the SQLAlchemy store of `FearGreedData` rows is a `List CacheRow`, with the
  autoincrement id state threaded explicitly;
* `None` results of fallible Python functions become `Option`.
-/

namespace GreedBot

/-- Day index of an instant (minutes since epoch): `datetime.date()` of the
corresponding wall clock.  `Int` division is floor division, matching the
calendar for negative instants as well. -/
def localDate (t : Int) : Int := t / 1440

/-- Embedding of `datetime.hour` of an instant given in minutes since epoch. -/
def localHour (t : Int) : Int := (t % 1440) / 60

/-- Embedding of `datetime.minute` of an instant given in minutes since epoch. -/
def localMinute (t : Int) : Int := t % 60

/-- Embedding of the split on the colon character, over the character list
of the string. -/
def splitOnColon : List Char → List (List Char)
  | [] => [[]]
  | c :: rest =>
    let r := splitOnColon rest
    if c = ':' then [] :: r
    else
      match r with
      | [] => [[c]]
      | g :: gs => (c :: g) :: gs

/-- Python `int(...)` on a piece of the split string: digits only; the empty
string and any non-digit raise `ValueError`, modelled as `none`. -/
def digitsToNatGo : List Char → Nat → Option Nat
  | [], acc => some acc
  | c :: rest, acc =>
    if c.isDigit then digitsToNatGo rest (10 * acc + (c.toNat - 48)) else none

/-- Python `int(...)` (continued): the empty string raises. -/
def digitsToNat : List Char → Option Nat
  | [] => none
  | cs => digitsToNatGo cs 0

/-- Embedding of the assignment `hour, minute = map(int, ...split(...))`
on the push-time string — `none` models
the `ValueError` raised on a malformed string, which the enclosing
`except` of `_should_send_notification` turns into `False`. -/
def parseHHMM (s : String) : Option (Nat × Nat) :=
  match splitOnColon s.data with
  | [h, m] =>
    match digitsToNat h, digitsToNat m with
    | some hv, some mv => some (hv, mv)
    | _, _ => none
  | _ => none

/-- Python `a or b` for an optional string column: `None` and `""` are both
falsy and fall through to the default. -/
def pyOr (a : Option String) (b : String) : String :=
  match a with
  | some s => if s = "" then b else s
  | none => b

/-- A row of the `users` table, restricted to the columns the scheduler
reads (`last_notification_sent` is the column added by `migrate_db.py`). -/
structure BotUser where
  telegram_id : Nat
  push_time : Option String
  timezone : Option String
  last_notification_sent : Option Int
  language_code : Option String
  is_subscribed : Bool
deriving DecidableEq

/-- Embedding of `NotificationScheduler._should_send_notification`.

`tzdb` stands for `ZoneInfo`: `tzdb z = some off` means zone `z` resolves
with UTC offset `off` minutes, `none` means the constructor raises, in which
case the code logs a warning and keeps `user_current_time = current_time`
(UTC).  In that failure case the later dedup branch raises `NameError` on
the unbound `user_tz`, which the inner `except` turns into the UTC date
comparison of lines 196-199 of `scheduler.py`. -/
def should_send_notification (tzdb : String → Option Int)
    (defaultTime defaultTz : String) (u : BotUser) (currentTime : Int) : Bool :=
  let notificationTime := pyOr u.push_time defaultTime
  let userTimezone := pyOr u.timezone defaultTz
  match parseHHMM notificationTime with
  | none => false
  | some (h, m) =>
    let tzOffset := tzdb userTimezone
    let userCurrentTime : Int :=
      match tzOffset with
      | some off => currentTime + off
      | none => currentTime
    if localHour userCurrentTime = (h : Int) ∧ localMinute userCurrentTime = (m : Int) then
      match u.last_notification_sent with
      | some lastNotification =>
        match tzOffset with
        | some off =>
          if localDate (lastNotification + off) ≥ localDate userCurrentTime then
            false
          else
            true
        | none =>
          if localDate lastNotification ≥ localDate currentTime then false else true
      | none => true
    else
      false

/-- The concrete zone table used by witnesses: Asia/Tokyo is UTC+9 with no
daylight saving. -/
def tzdbJP : String → Option Int :=
  fun z => if z = "Asia/Tokyo" then some 540 else if z = "UTC" then some 0 else none

/-- The `last_update` slot of the payload dictionaries: either the raw
provider string (CNN path), the instant decoded from a numeric provider
timestamp, or `datetime.now()` taken during parsing (backup path). -/
inductive LastUpdate where
  | raw (s : String)
  | fromInstant (n : Int)
  | nowInstant
deriving DecidableEq

/-- The dictionary both parsers of `fetcher.py` return on success (the keys
`current_value` .. `source`); an overall parse failure is the falsy `{}`,
modelled as `none` at the use sites. -/
structure ApiData where
  current_value : Int
  rating : String
  last_update : LastUpdate
  previous_close : Option Int
  week_ago : Option Int
  month_ago : Option Int
  year_ago : Option Int
  source : String
deriving DecidableEq

/-- A row of the `fear_greed_data` table. -/
structure CacheRow where
  id : Nat
  date : Int
  current_value : Int
  rating : String
  previous_close : Option Int
  week_ago : Option Int
  month_ago : Option Int
  year_ago : Option Int
  source : String
  created_at : Int
deriving DecidableEq

/-- Embedding of `order_by(created_at.desc()).limit(1)`: the row with the greatest
`created_at` (leftmost on ties, refining the unspecified SQL tie order). -/
def maxByCreatedAt : List CacheRow → Option CacheRow
  | [] => none
  | r :: rest =>
    match maxByCreatedAt rest with
    | none => some r
    | some b => if r.created_at < b.created_at then some b else some r

/-- Embedding of `FearGreedRepository.get_latest_fear_greed_data`: the
most recent row with `created_at >= now - max_age_minutes`. -/
def get_latest_fear_greed_data (max_age_minutes now : Int)
    (store : List CacheRow) : Option CacheRow :=
  maxByCreatedAt (store.filter (fun r => now - max_age_minutes ≤ r.created_at))

/-- The dictionary `CacheAwareFearGreedService` hands back to its callers
(union of the keys set by `_format_cached_data` and `_format_api_data`;
a key a branch does not set is read back with the falsy default its
readers use, hence plain `false` / `none` here). -/
structure ResultData where
  score : Int
  rating : String
  timestamp : LastUpdate
  previous_close : Option Int
  week_ago : Option Int
  month_ago : Option Int
  year_ago : Option Int
  source : String
  cached : Bool
  cache_time : Option Int
  is_stale : Bool
  fresh : Bool
deriving DecidableEq

/-- The `get_cached_fear_greed_data` row-to-dictionary conversion followed by
`CacheAwareFearGreedService._format_cached_data`; `stale` is whether the
caller set `is_stale = True` on the dictionary first. -/
def format_cached_data (r : CacheRow) (stale : Bool) : ResultData :=
  { score := r.current_value
    rating := r.rating
    timestamp := LastUpdate.fromInstant r.date
    previous_close := r.previous_close
    week_ago := r.week_ago
    month_ago := r.month_ago
    year_ago := r.year_ago
    source := r.source
    cached := true
    cache_time := some r.created_at
    is_stale := stale
    fresh := false }

/-- Embedding of `CacheAwareFearGreedService._format_api_data`. -/
def format_api_data (d : ApiData) : ResultData :=
  { score := d.current_value
    rating := d.rating
    timestamp := d.last_update
    previous_close := d.previous_close
    week_ago := d.week_ago
    month_ago := d.month_ago
    year_ago := d.year_ago
    source := d.source
    cached := false
    cache_time := none
    is_stale := false
    fresh := true }

/-- Embedding of `FearGreedDataDTO`: `date` is `datetime.utcnow()` at
construction. -/
structure FearGreedDataDTO where
  current_value : Int
  rating : String
  previous_close : Option Int
  week_ago : Option Int
  month_ago : Option Int
  year_ago : Option Int
  source : String
  date : Int
deriving DecidableEq

/-- The filter of `save_fear_greed_data`: `date >= datetime.combine(today,
min.time())` and `date < datetime.combine(today + 1 day, min.time())`,
with `today` a day index (so midnight of day `d` is minute `1440 * d`). -/
def rowOnDay (today : Int) (r : CacheRow) : Bool :=
  1440 * today ≤ r.date ∧ r.date < 1440 * (today + 1)

/-- The fresh `FearGreedData(...)` row of the insert branch of
`save_fear_greed_data`: `created_at` takes its column default `utcnow`. -/
def insert_row (dto : FearGreedDataDTO) (now : Int) (nextId : Nat) : CacheRow :=
  { id := nextId, date := dto.date, current_value := dto.current_value,
    rating := dto.rating, previous_close := dto.previous_close,
    week_ago := dto.week_ago, month_ago := dto.month_ago,
    year_ago := dto.year_ago, source := dto.source, created_at := now }

/-- The in-place mutation of the update branch of `save_fear_greed_data`:
every data column plus `created_at := utcnow` is overwritten on the row
with the existing identity; `id` and `date` are untouched. -/
def update_row (dto : FearGreedDataDTO) (now : Int) (existingId : Nat)
    (r : CacheRow) : CacheRow :=
  if r.id = existingId then
    { r with current_value := dto.current_value, rating := dto.rating,
             previous_close := dto.previous_close, week_ago := dto.week_ago,
             month_ago := dto.month_ago, year_ago := dto.year_ago,
             source := dto.source, created_at := now }
  else r

/-- Embedding of `FearGreedRepository.save_fear_greed_data`, state-passing: the
result is the new store plus the next autoincrement id.  `none` models the
`MultipleResultsFound` exception `scalar_one_or_none` raises when more than
one row matches the same-day filter. -/
def save_fear_greed_data (dto : FearGreedDataDTO) (now : Int) (nextId : Nat)
    (store : List CacheRow) : Option (List CacheRow × Nat) :=
  match store.filter (rowOnDay (localDate now)) with
  | [] => some (store ++ [insert_row dto now nextId], nextId + 1)
  | [existing] => some (store.map (update_row dto now existing.id), nextId)
  | _ => none

/-- The DTO `save_fear_greed_data_to_cache` builds (`date := utcnow` at
construction).  `current_value or score` falls through on the falsy `0`,
and `score` is absent from the fetcher dictionaries, so its default `0` is
used then — the net value is unchanged. -/
def dto_of_api (d : ApiData) (now : Int) : FearGreedDataDTO :=
  { current_value := if d.current_value = 0 then 0 else d.current_value,
    rating := d.rating, previous_close := d.previous_close,
    week_ago := d.week_ago, month_ago := d.month_ago, year_ago := d.year_ago,
    source := d.source, date := now }

/-- Embedding of `save_fear_greed_data_to_cache`: builds the DTO and swallows the
save exception into a `False` return, leaving the store untouched. -/
def save_fear_greed_data_to_cache (d : ApiData) (now : Int) (nextId : Nat)
    (store : List CacheRow) : Bool × List CacheRow × Nat :=
  match save_fear_greed_data (dto_of_api d now) now nextId store with
  | some (store2, nextId2) => (true, store2, nextId2)
  | none => (false, store, nextId)

/-- Embedding of `CacheAwareFearGreedService.get_current_fear_greed_index`.  The one upstream call the method can make
(`_fetch_fresh_data`, whose internal failures already surface as `None`) is
the parameter `fetch`; the last component of the result counts how many
times it was issued.  Result, new store and next id mirror the code path:
cache probe, fetch-and-save, 180-minute stale fallback, no data. -/
def get_current_fear_greed_index (cache_timeout_minutes : Int)
    (force_refresh : Bool) (fetch : Option ApiData) (now : Int) (nextId : Nat)
    (store : List CacheRow) : Option ResultData × List CacheRow × Nat × Nat :=
  match (if force_refresh then none
         else get_latest_fear_greed_data cache_timeout_minutes now store) with
  | some row => (some (format_cached_data row false), store, nextId, 0)
  | none =>
    match fetch with
    | some fresh =>
      let saved := save_fear_greed_data_to_cache fresh now nextId store
      (some (format_api_data fresh), saved.2.1, saved.2.2, 1)
    | none =>
      match get_latest_fear_greed_data 180 now store with
      | some row => (some (format_cached_data row true), store, nextId, 1)
      | none => (none, store, nextId, 1)

/-- Embedding of `NotificationScheduler._health_check`: probes the cache-aware read path
(`force_refresh = False`) and only logs the outcome; this is the store it
leaves behind. -/
def health_check (cache_timeout_minutes : Int) (fetch : Option ApiData)
    (now : Int) (nextId : Nat) (store : List CacheRow) : List CacheRow :=
  (get_current_fear_greed_index cache_timeout_minutes false fetch now nextId store).2.1

/-- The observable per-subscriber steps of one notification tick. -/
inductive Event where
  | eligibility (ok : Bool)
  | fetchData
  | render (ok : Bool)
  | send (ok : Bool)
  | record
deriving DecidableEq

/-- Embedding of `NotificationScheduler._send_daily_notification` for one
subscriber, as the sequence of steps it performs plus the updated user row.
`data` is the snapshot the cache service returned (`None` aborts before
rendering); `renderOk` is whether message formatting raised; `sendOk` is
whether `bot.send_message` succeeded.  The enclosing `try` turns any raise
into a logged return, so a failed send reaches neither
`update_last_notification` nor any later step; on success the recorded
timestamp is the wall clock at the send, identified with the tick instant
`now` here. -/
def send_daily_notification (data : Option ResultData) (renderOk sendOk : Bool)
    (now : Int) (u : BotUser) : List Event × BotUser :=
  match data with
  | none => ([Event.fetchData], u)
  | some _ =>
    if renderOk then
      if sendOk then
        ([Event.fetchData, Event.render true, Event.send true, Event.record],
         { u with last_notification_sent := some now })
      else
        ([Event.fetchData, Event.render true, Event.send false], u)
    else
      ([Event.fetchData, Event.render false], u)

/-- One iteration of the subscriber loop of
`_check_daily_notifications`: evaluate eligibility, and only then run
`_send_daily_notification`.  All exceptions below this point are caught
(either by `_send_daily_notification` itself or by the per-user `except
... continue`), so the iteration always yields a row. -/
def process_user (tzdb : String → Option Int) (defaultTime defaultTz : String)
    (t : Int) (data : Nat → Option ResultData) (renderOk sendOk : Nat → Bool)
    (u : BotUser) : List Event × BotUser :=
  if should_send_notification tzdb defaultTime defaultTz u t then
    let step := send_daily_notification (data u.telegram_id)
      (renderOk u.telegram_id) (sendOk u.telegram_id) t u
    (Event.eligibility true :: step.1, step.2)
  else
    ([Event.eligibility false], u)

/-- The `for user in users` loop body of `_check_daily_notifications`. -/
def notification_loop (tzdb : String → Option Int) (defaultTime defaultTz : String)
    (t : Int) (data : Nat → Option ResultData) (renderOk sendOk : Nat → Bool) :
    List BotUser → List BotUser
  | [] => []
  | u :: rest =>
    (process_user tzdb defaultTime defaultTz t data renderOk sendOk u).2 ::
      notification_loop tzdb defaultTime defaultTz t data renderOk sendOk rest

/-- Embedding of `NotificationScheduler._check_daily_notifications`: fetch the
subscribed users (`select ... where is_subscribed`) and process each. -/
def check_daily_notifications (tzdb : String → Option Int)
    (defaultTime defaultTz : String) (t : Int) (data : Nat → Option ResultData)
    (renderOk sendOk : Nat → Bool) (users : List BotUser) : List BotUser :=
  notification_loop tzdb defaultTime defaultTz t data renderOk sendOk
    (users.filter (fun u => u.is_subscribed))

/-- Python `int(...)` on a string: optional leading minus then digits
(`none` models the `ValueError`). -/
def pyInt? (s : String) : Option Int :=
  match s.data with
  | '-' :: rest => (digitsToNat rest).map (fun n => -(n : Int))
  | cs => (digitsToNat cs).map (fun n => (n : Int))

/-- The `fear_and_greed` object of the CNN payload; every key is optional
because the parser reads each with a `.get` default. -/
structure CnnFearGreed where
  score : Option Int
  rating : Option String
  timestamp : Option String
  previous_close : Option Int
  previous_1_week : Option Int
  previous_1_month : Option Int
  previous_1_year : Option Int
deriving DecidableEq

/-- Embedding of `FearGreedDataFetcher._parse_cnn_data`: the argument is
`data.get` of the fear_and_greed key, default empty dictionary.  With a dictionary-shaped payload (which
the typed input guarantees) no exception can occur, so the `{}` failure
return of the `except` branch (`none` here) is never produced: every value,
in range or not, is passed through. -/
def parse_cnn_data (fear_and_greed : Option CnnFearGreed) : Option ApiData :=
  let fg := fear_and_greed.getD ⟨none, none, none, none, none, none, none⟩
  some { current_value := fg.score.getD 0
         rating := fg.rating.getD ("Unknown")
         last_update := LastUpdate.raw (fg.timestamp.getD (""))
         previous_close := some (fg.previous_close.getD 0)
         week_ago := some (fg.previous_1_week.getD 0)
         month_ago := some (fg.previous_1_month.getD 0)
         year_ago := some (fg.previous_1_year.getD 0)
         source := "CNN Official API" }

/-- One element of the `data` array of the Alternative.me payload. -/
structure BackupEntry where
  value : Option String
  value_classification : Option String
  timestamp : Option String
deriving DecidableEq

/-- The Alternative.me payload: `data` key optional, possibly empty. -/
structure BackupPayload where
  data : Option (List BackupEntry)
deriving DecidableEq

/-- Embedding of `FearGreedDataFetcher._parse_backup_data`.  `none` is the falsy
`{}` returned when the `data` array is missing or empty, or when
`int` of the value field raises and the `except` fires.  The
integer default 50 of the value lookup is written as the equivalent string
`"50"`.  A non-numeric timestamp falls back to `datetime.now()` inside its
own inner `try`. -/
def parse_backup_data (p : BackupPayload) : Option ApiData :=
  match p.data with
  | some (latest :: _) =>
    match pyInt? (latest.value.getD ("50")) with
    | none => none
    | some v =>
      let ts := latest.timestamp.getD ("")
      let lu := if ts = "" then LastUpdate.nowInstant
                else
                  match pyInt? ts with
                  | some n => LastUpdate.fromInstant n
                  | none => LastUpdate.nowInstant
      some { current_value := v
             rating := latest.value_classification.getD ("Unknown")
             last_update := lu
             previous_close := none
             week_ago := none
             month_ago := none
             year_ago := none
             source := "Alternative.me API" }
  | _ => none

/-- Embedding of `cache_service.get_smart_fetcher`.  A
`SmartDataFetcher` is represented by its one configuration datum, the
freshness window it was constructed with; the global
`_smart_fetcher_instance` is the explicit `Option Nat` state.  Returns the
fetcher handed to the caller and the new global. -/
def get_smart_fetcher (cache_timeout_minutes : Nat) (inst : Option Nat) :
    Nat × Option Nat :=
  match inst with
  | none => (cache_timeout_minutes, some cache_timeout_minutes)
  | some existing => (existing, some existing)

/-- A sequence of `get_smart_fetcher` calls with the given arguments,
starting from the given global state; yields the freshness window of the
fetcher each caller received. -/
def smart_fetcher_calls : Option Nat → List Nat → List Nat
  | _, [] => []
  | inst, a :: rest =>
    let call := get_smart_fetcher a inst
    call.1 :: smart_fetcher_calls call.2 rest

/-- A sample successful upstream fetch used by witnesses. -/
def sampleApi : ApiData :=
  { current_value := 42, rating := "Fear", last_update := LastUpdate.raw ("x"),
    previous_close := some 44, week_ago := some 40, month_ago := some 55,
    year_ago := some 60, source := "CNN Official API" }

/-- The row the first witness call persists at minute 1000. -/
def sampleSavedRow : CacheRow :=
  { id := 0, date := 1000, current_value := 42, rating := "Fear",
    previous_close := some 44, week_ago := some 40, month_ago := some 55,
    year_ago := some 60, source := "CNN Official API", created_at := 1000 }

/-- A snapshot 90 minutes old at witness time 6000. -/
def staleRow : CacheRow :=
  { id := 3, date := 5910, current_value := 61, rating := "Greed",
    previous_close := none, week_ago := none, month_ago := none,
    year_ago := none, source := "Alternative.me API", created_at := 5910 }

/-- A second sample fetch result, for the second save of the C4 witness. -/
def staleApi : ApiData :=
  { current_value := 55, rating := "Neutral", last_update := LastUpdate.nowInstant,
    previous_close := none, week_ago := none, month_ago := none,
    year_ago := none, source := "Alternative.me API" }

/-- A snapshot handed to the notification path by witnesses. -/
def sampleResult : ResultData := format_cached_data sampleSavedRow false

/-- An eligible Tokyo subscriber used by the C5 witness. -/
def sampleUser : BotUser :=
  { telegram_id := 7, push_time := some ("09:00"), timezone := some ("Asia/Tokyo"),
    last_notification_sent := none, language_code := some ("en"),
    is_subscribed := true }

end GreedBot

namespace GreedBot

/-- Claim C1 (dedup): for every subscriber whose stored timezone resolves to
offset `off` and every UTC tick instant, if `last_notification_sent`
converted into that timezone falls on the same or a later local calendar
date than the tick instant converted into that timezone, then
`_should_send_notification` returns `false`. -/
theorem dedup_no_second_notification_same_local_day
    (tzdb : String → Option Int) (defaultTime defaultTz : String)
    (u : BotUser) (currentTime lastNotification off : Int)
    (hlast : u.last_notification_sent = some lastNotification)
    (htz : tzdb (pyOr u.timezone defaultTz) = some off)
    (hdate : localDate (lastNotification + off) ≥ localDate (currentTime + off)) :
    should_send_notification tzdb defaultTime defaultTz u currentTime = false := by
  unfold should_send_notification
  cases hp : parseHHMM (pyOr u.push_time defaultTime) with
  | none => simp [hp]
  | some hm =>
    obtain ⟨h, m⟩ := hm
    simp [hp, htz, hlast, hdate]

/-- Witness for C1: a Tokyo subscriber with push time 09:00 who was last
notified at Tokyo date 20 (minute 29460 = day 20, 11:00 Tokyo) is not
eligible at the 09:00 Tokyo tick of the same Tokyo day
(UTC minute 28800 + 540 = 29340 = day 20, 09:00 Tokyo). -/
theorem dedup_no_second_notification_same_local_day_witness :
    should_send_notification tzdbJP ("09:00") ("UTC")
      { telegram_id := 7, push_time := some ("09:00"), timezone := some ("Asia/Tokyo"),
        last_notification_sent := some 28920, language_code := some ("en"),
        is_subscribed := true } 28800 = false :=
  dedup_no_second_notification_same_local_day tzdbJP ("09:00") ("UTC") _ 28800 28920 540
    rfl (by decide) (by decide)

/-- Claim C9 (invalid timezone degrades to UTC): when the stored timezone
name does not resolve (`tzdb` returns `none`, i.e. `ZoneInfo` raises), the
eligibility predicate still returns a boolean, computed exactly as it would
be for a zone resolving to UTC offset 0: local-time match and the
last-notification date comparison are both evaluated in UTC. -/
theorem invalid_timezone_degrades_to_utc
    (tzdb tzdbUTC : String → Option Int) (defaultTime defaultTz : String)
    (u : BotUser) (currentTime : Int)
    (hbad : tzdb (pyOr u.timezone defaultTz) = none)
    (hutc : tzdbUTC (pyOr u.timezone defaultTz) = some 0) :
    should_send_notification tzdb defaultTime defaultTz u currentTime =
      should_send_notification tzdbUTC defaultTime defaultTz u currentTime := by
  unfold should_send_notification
  cases hp : parseHHMM (pyOr u.push_time defaultTime) with
  | none => simp [hp]
  | some hm =>
    obtain ⟨h, m⟩ := hm
    cases hl : u.last_notification_sent with
    | none => simp [hp, hbad, hutc, hl]
    | some lastN => simp [hp, hbad, hutc, hl]

/-- Witness for C9: a subscriber with the invalid zone name `Mars/Olympus`
is evaluated exactly as under UTC and yields `true` at UTC 09:00 with no
prior notification. -/
theorem invalid_timezone_degrades_to_utc_witness :
    should_send_notification (fun _ => none) ("09:00") ("UTC")
        { telegram_id := 9, push_time := some ("09:00"), timezone := some ("Mars/Olympus"),
          last_notification_sent := none, language_code := none,
          is_subscribed := true } 540 =
      should_send_notification (fun _ => some 0) ("09:00") ("UTC")
        { telegram_id := 9, push_time := some ("09:00"), timezone := some ("Mars/Olympus"),
          last_notification_sent := none, language_code := none,
          is_subscribed := true } 540 ∧
    should_send_notification (fun _ => none) ("09:00") ("UTC")
        { telegram_id := 9, push_time := some ("09:00"), timezone := some ("Mars/Olympus"),
          last_notification_sent := none, language_code := none,
          is_subscribed := true } 540 = true :=
  ⟨invalid_timezone_degrades_to_utc (fun _ => none) (fun _ => some 0) ("09:00") ("UTC") _ 540
      rfl rfl,
    by decide⟩

theorem maxByCreatedAt_eq_none {l : List CacheRow}
    (h : maxByCreatedAt l = none) : l = [] := by
  cases l with
  | nil => rfl
  | cons a rest =>
    simp only [maxByCreatedAt] at h
    cases hm : maxByCreatedAt rest with
    | none => rw [hm] at h; simp at h
    | some b =>
      rw [hm] at h
      by_cases hc : a.created_at < b.created_at <;> simp [hc] at h

theorem maxByCreatedAt_mem {l : List CacheRow} {r : CacheRow}
    (h : maxByCreatedAt l = some r) : r ∈ l := by
  induction l generalizing r with
  | nil => simp [maxByCreatedAt] at h
  | cons a rest ih =>
    simp only [maxByCreatedAt] at h
    cases hm : maxByCreatedAt rest with
    | none =>
      rw [hm] at h
      simp only [Option.some.injEq] at h
      subst h
      exact List.mem_cons_self a rest
    | some b =>
      rw [hm] at h
      by_cases hc : a.created_at < b.created_at
      · simp only [if_pos hc, Option.some.injEq] at h
        subst h
        exact List.mem_cons_of_mem a (ih hm)
      · simp only [if_neg hc, Option.some.injEq] at h
        subst h
        exact List.mem_cons_self a rest

theorem maxByCreatedAt_le {l : List CacheRow} {r x : CacheRow}
    (h : maxByCreatedAt l = some r) (hx : x ∈ l) :
    x.created_at ≤ r.created_at := by
  induction l generalizing r with
  | nil => simp at hx
  | cons a rest ih =>
    simp only [maxByCreatedAt] at h
    rcases List.mem_cons.mp hx with hxa | hxr
    · subst hxa
      cases hm : maxByCreatedAt rest with
      | none =>
        rw [hm] at h
        simp only [Option.some.injEq] at h
        subst h
        exact le_refl _
      | some b =>
        rw [hm] at h
        by_cases hc : x.created_at < b.created_at
        · simp only [if_pos hc, Option.some.injEq] at h
          subst h
          exact le_of_lt hc
        · simp only [if_neg hc, Option.some.injEq] at h
          subst h
          exact le_refl _
    · cases hm : maxByCreatedAt rest with
      | none =>
        have hnil := maxByCreatedAt_eq_none hm
        rw [hnil] at hxr
        simp at hxr
      | some b =>
        rw [hm] at h
        have hxb := ih hm hxr
        by_cases hc : a.created_at < b.created_at
        · simp only [if_pos hc, Option.some.injEq] at h
          subst h
          exact hxb
        · simp only [if_neg hc, Option.some.injEq] at h
          subst h
          exact le_trans hxb (not_lt.mp hc)

theorem maxByCreatedAt_filter {l : List CacheRow} {r : CacheRow}
    (p : CacheRow → Bool) (h : maxByCreatedAt l = some r) (hp : p r = true) :
    maxByCreatedAt (l.filter p) = some r := by
  induction l generalizing r with
  | nil => simp [maxByCreatedAt] at h
  | cons a rest ih =>
    simp only [maxByCreatedAt] at h
    cases hm : maxByCreatedAt rest with
    | none =>
      have hnil := maxByCreatedAt_eq_none hm
      subst hnil
      rw [hm] at h
      simp only [Option.some.injEq] at h
      subst h
      simp [List.filter_cons, hp, maxByCreatedAt]
    | some b =>
      rw [hm] at h
      by_cases hc : a.created_at < b.created_at
      · simp only [if_pos hc, Option.some.injEq] at h
        subst h
        have hfr := ih hm hp
        by_cases hpa : p a = true
        · rw [List.filter_cons_of_pos hpa]
          simp only [maxByCreatedAt, hfr, if_pos hc]
        · rw [List.filter_cons_of_neg (by simp [hpa])]
          exact hfr
      · simp only [if_neg hc, Option.some.injEq] at h
        subst h
        rw [List.filter_cons_of_pos hp]
        cases hf : maxByCreatedAt (rest.filter p) with
        | none => simp [maxByCreatedAt, hf]
        | some c =>
          have hcr : c ∈ rest := List.mem_of_mem_filter (maxByCreatedAt_mem hf)
          have hcb : c.created_at ≤ b.created_at := maxByCreatedAt_le hm hcr
          have hac : ¬ a.created_at < c.created_at := by
            have := not_lt.mp hc
            omega
          simp only [maxByCreatedAt, hf, if_neg hac]

theorem get_latest_of_global_max {store : List CacheRow} {r : CacheRow}
    (F now : Int) (hmax : maxByCreatedAt store = some r)
    (hage : now - F ≤ r.created_at) :
    get_latest_fear_greed_data F now store = some r := by
  unfold get_latest_fear_greed_data
  exact maxByCreatedAt_filter _ hmax (by simpa using hage)

/-- Claim C3 (freshness, cache hit avoids fetch): if `force_refresh` is
false and the most recent stored snapshot has age strictly below the
freshness window, `get_current_fear_greed_index` returns exactly that
snapshot tagged `cached = true`, not stale, leaves the store untouched and
issues zero upstream fetches — so, with a 30-minute window, two calls 10
minutes apart after an initial successful fetch issue exactly one upstream
fetch in total (the witness instantiates that scenario). -/
theorem freshness_cache_hit (F now : Int) (fetch : Option ApiData)
    (nextId : Nat) (store : List CacheRow) (r : CacheRow)
    (hmax : maxByCreatedAt store = some r)
    (hage : now - r.created_at < F) :
    get_current_fear_greed_index F false fetch now nextId store =
      (some (format_cached_data r false), store, nextId, 0) ∧
    (format_cached_data r false).cached = true ∧
    (format_cached_data r false).is_stale = false := by
  have hlookup : get_latest_fear_greed_data F now store = some r :=
    get_latest_of_global_max F now hmax (by omega)
  refine ⟨?_, rfl, rfl⟩
  unfold get_current_fear_greed_index
  simp [hlookup]

/-- Witness for C3, the two-call scenario: from an empty store, a first
call at minute 1000 issues one fetch and saves; the second call 10 minutes
later (window 30, upstream would fail) is served from the store with zero
fetches — one upstream fetch in total. -/
theorem freshness_cache_hit_witness :
    (get_current_fear_greed_index 30 false (some sampleApi) 1000 0 []).2.2.2 = 1 ∧
    (get_current_fear_greed_index 30 false (some sampleApi) 1000 0 []).2.1 =
      [sampleSavedRow] ∧
    get_current_fear_greed_index 30 false none 1010 1 [sampleSavedRow] =
      (some (format_cached_data sampleSavedRow false), [sampleSavedRow], 1, 0) :=
  ⟨by decide, by decide,
    (freshness_cache_hit 30 1010 none 1 [sampleSavedRow] sampleSavedRow
      (by decide) (by decide)).1⟩

/-- Claim C2 (stale fallback): when the upstream fetch returns nothing and
the fetch was actually attempted (forced refresh, or no snapshot inside the
freshness window), `get_current_fear_greed_index` returns the most recent
snapshot inside the 180-minute stale window tagged `is_stale = true` —
whatever its age relative to the freshness window — and when no snapshot
lies inside the stale window it returns `none`, never a default value. -/
theorem stale_fallback (F : Int) (force : Bool) (now : Int) (nextId : Nat)
    (store : List CacheRow)
    (hmiss : force = true ∨ get_latest_fear_greed_data F now store = none) :
    (∀ r, get_latest_fear_greed_data 180 now store = some r →
      get_current_fear_greed_index F force none now nextId store =
        (some (format_cached_data r true), store, nextId, 1) ∧
      (format_cached_data r true).is_stale = true ∧
      (format_cached_data r true).cached = true) ∧
    (get_latest_fear_greed_data 180 now store = none →
      get_current_fear_greed_index F force none now nextId store =
        (none, store, nextId, 1)) := by
  have hscrut : (if force then none
      else get_latest_fear_greed_data F now store) = (none : Option CacheRow) := by
    rcases hmiss with hf | hm
    · simp [hf]
    · simp [hm]
  constructor
  · intro r hr
    refine ⟨?_, rfl, rfl⟩
    unfold get_current_fear_greed_index
    rw [hscrut]
    simp [hr]
  · intro hnone
    unfold get_current_fear_greed_index
    rw [hscrut]
    simp [hnone]

/-- Witness for C2, the spec scenario: every upstream call fails, the only
snapshot is 90 minutes old, freshness window 30, stale window 180; the call
returns that snapshot tagged stale. -/
theorem stale_fallback_witness :
    get_current_fear_greed_index 30 false none 6000 4 [staleRow] =
      (some (format_cached_data staleRow true), [staleRow], 4, 1) ∧
    (format_cached_data staleRow true).is_stale = true :=
  ⟨((stale_fallback 30 false 6000 4 [staleRow] (Or.inr (by decide))).1
      staleRow (by decide)).1,
    ((stale_fallback 30 false 6000 4 [staleRow] (Or.inr (by decide))).1
      staleRow (by decide)).2.1⟩

theorem map_fixed {α : Type} {f : α → α} :
    ∀ {l : List α}, (∀ x ∈ l, f x = x) → l.map f = l := by
  intro l h
  induction l with
  | nil => rfl
  | cons a rest ih =>
    simp only [List.map_cons, h a (List.mem_cons_self a rest)]
    rw [ih (fun x hx => h x (List.mem_cons_of_mem a hx))]

theorem rowOnDay_of_same_day {r : CacheRow} {t : Int}
    (h : localDate r.date = localDate t) : rowOnDay (localDate t) r = true := by
  unfold rowOnDay
  unfold localDate at h ⊢
  simp only [decide_eq_true_eq]
  omega

theorem save_insert (dto : FearGreedDataDTO) (now : Int) (nextId : Nat)
    (store : List CacheRow)
    (h : store.filter (rowOnDay (localDate now)) = []) :
    save_fear_greed_data dto now nextId store =
      some (store ++ [insert_row dto now nextId], nextId + 1) := by
  unfold save_fear_greed_data
  rw [h]

theorem save_update (dto : FearGreedDataDTO) (now : Int) (nextId : Nat)
    (store : List CacheRow) (existing : CacheRow)
    (h : store.filter (rowOnDay (localDate now)) = [existing]) :
    save_fear_greed_data dto now nextId store =
      some (store.map (update_row dto now existing.id), nextId) := by
  unfold save_fear_greed_data
  rw [h]

/-- Claim C4 (update-in-place daily-row invariant): starting from a store
with no row for the day and no row occupying the next autoincrement id,
saving a snapshot at `t1` and a second snapshot at `t2 > t1` of the same
UTC calendar day leaves exactly one row for that day; the second save keeps
the identity of the row the first save created, and `created_at` is `t1`
after the first save and `t2` after the second — strictly increased. -/
theorem save_twice_same_day_single_row
    (store0 : List CacheRow) (nextId : Nat) (d1 d2 : ApiData) (t1 t2 : Int)
    (hday : localDate t1 = localDate t2) (ht : t1 < t2)
    (hnone : store0.filter (rowOnDay (localDate t1)) = [])
    (hid : ∀ r ∈ store0, r.id ≠ nextId) :
    ∃ r1 r2 : CacheRow,
      (save_fear_greed_data_to_cache d1 t1 nextId store0).2.1.filter
          (rowOnDay (localDate t1)) = [r1] ∧
      (save_fear_greed_data_to_cache d2 t2
          (save_fear_greed_data_to_cache d1 t1 nextId store0).2.2
          (save_fear_greed_data_to_cache d1 t1 nextId store0).2.1).2.1.filter
          (rowOnDay (localDate t1)) = [r2] ∧
      r2.id = r1.id ∧ r1.created_at = t1 ∧ r2.created_at = t2 ∧
      r1.created_at < r2.created_at := by
  have hsave1 : save_fear_greed_data_to_cache d1 t1 nextId store0 =
      (true, store0 ++ [insert_row (dto_of_api d1 t1) t1 nextId], nextId + 1) := by
    unfold save_fear_greed_data_to_cache
    rw [save_insert _ _ _ _ hnone]
  have hrow1day : rowOnDay (localDate t1)
      (insert_row (dto_of_api d1 t1) t1 nextId) = true :=
    rowOnDay_of_same_day rfl
  have hfilter1 : (store0 ++ [insert_row (dto_of_api d1 t1) t1 nextId]).filter
      (rowOnDay (localDate t1)) = [insert_row (dto_of_api d1 t1) t1 nextId] := by
    rw [List.filter_append, hnone]
    simp [hrow1day]
  have hfilter1t2 : (store0 ++ [insert_row (dto_of_api d1 t1) t1 nextId]).filter
      (rowOnDay (localDate t2)) = [insert_row (dto_of_api d1 t1) t1 nextId] := by
    rw [← hday]
    exact hfilter1
  have hupdrow : update_row (dto_of_api d2 t2) t2 nextId
      (insert_row (dto_of_api d1 t1) t1 nextId) =
      { id := nextId, date := t1,
        current_value := (dto_of_api d2 t2).current_value,
        rating := (dto_of_api d2 t2).rating,
        previous_close := (dto_of_api d2 t2).previous_close,
        week_ago := (dto_of_api d2 t2).week_ago,
        month_ago := (dto_of_api d2 t2).month_ago,
        year_ago := (dto_of_api d2 t2).year_ago,
        source := (dto_of_api d2 t2).source, created_at := t2 } := by
    unfold update_row insert_row dto_of_api
    simp
  have hmap : (store0 ++ [insert_row (dto_of_api d1 t1) t1 nextId]).map
      (update_row (dto_of_api d2 t2) t2 (insert_row (dto_of_api d1 t1) t1 nextId).id) =
      store0 ++ [update_row (dto_of_api d2 t2) t2 nextId
        (insert_row (dto_of_api d1 t1) t1 nextId)] := by
    rw [List.map_append]
    have h1 : store0.map (update_row (dto_of_api d2 t2) t2
        (insert_row (dto_of_api d1 t1) t1 nextId).id) = store0 :=
      map_fixed (fun x hx => by
        unfold update_row
        rw [if_neg (show ¬ (x.id = (insert_row (dto_of_api d1 t1) t1 nextId).id)
          from hid x hx)])
    rw [h1]
    rfl
  have hsave2 : save_fear_greed_data_to_cache d2 t2 (nextId + 1)
      (store0 ++ [insert_row (dto_of_api d1 t1) t1 nextId]) =
      (true, store0 ++ [update_row (dto_of_api d2 t2) t2 nextId
        (insert_row (dto_of_api d1 t1) t1 nextId)], nextId + 1) := by
    unfold save_fear_greed_data_to_cache
    rw [save_update _ _ _ _ _ hfilter1t2, hmap]
  have hupdday : rowOnDay (localDate t1)
      (update_row (dto_of_api d2 t2) t2 nextId
        (insert_row (dto_of_api d1 t1) t1 nextId)) = true :=
    rowOnDay_of_same_day (by rw [hupdrow])
  refine ⟨insert_row (dto_of_api d1 t1) t1 nextId,
    update_row (dto_of_api d2 t2) t2 nextId (insert_row (dto_of_api d1 t1) t1 nextId),
    ?_, ?_, ?_, rfl, ?_, ?_⟩
  · rw [hsave1]
    exact hfilter1
  · rw [hsave1]
    show (save_fear_greed_data_to_cache d2 t2 (nextId + 1) _).2.1.filter _ = _
    rw [hsave2]
    show (store0 ++ [_]).filter _ = _
    rw [List.filter_append, hnone]
    simp [hupdday]
  · rw [hupdrow]
    rfl
  · rw [hupdrow]
  · rw [hupdrow]
    exact ht

/-- The concrete two saves of the C4 witness: day 10 of the epoch, first
save at minute 14500, second at 14600. -/
theorem save_twice_same_day_single_row_witness :
    localDate 14500 = localDate 14600 ∧ (14500 : Int) < 14600 ∧
    ∃ r1 r2 : CacheRow,
      (save_fear_greed_data_to_cache sampleApi 14500 0 []).2.1.filter
          (rowOnDay (localDate 14500)) = [r1] ∧
      (save_fear_greed_data_to_cache staleApi 14600
          (save_fear_greed_data_to_cache sampleApi 14500 0 []).2.2
          (save_fear_greed_data_to_cache sampleApi 14500 0 []).2.1).2.1.filter
          (rowOnDay (localDate 14500)) = [r2] ∧
      r2.id = r1.id ∧ r1.created_at = 14500 ∧ r2.created_at = 14600 ∧
      r1.created_at < r2.created_at :=
  ⟨by decide, by decide,
    save_twice_same_day_single_row [] 0 sampleApi staleApi 14500 14600
      (by decide) (by decide) (by decide) (by intro r hr; simp at hr)⟩

/-- Claim C7 amended (frame of the health check): a health-check run probes
through the normal cache-aware read path, so it leaves the snapshot store
unchanged whenever a snapshot inside the freshness window exists or the
upstream fetch fails; the original log-only claim is refuted by
`health_check_writes_on_cache_miss`. -/
theorem health_check_frame (cacheTimeout : Int) (fetch : Option ApiData)
    (now : Int) (nextId : Nat) (store : List CacheRow)
    (h : (get_latest_fear_greed_data cacheTimeout now store).isSome = true ∨
      fetch = none) :
    health_check cacheTimeout fetch now nextId store = store := by
  unfold health_check get_current_fear_greed_index
  rcases h with hs | hf
  · obtain ⟨r, hr⟩ := Option.isSome_iff_exists.mp hs
    simp [hr]
  · subst hf
    cases hlk : get_latest_fear_greed_data cacheTimeout now store with
    | some r => simp [hlk]
    | none =>
      cases hlk2 : get_latest_fear_greed_data 180 now store <;> simp [hlk, hlk2]

/-- Witness for the amended C7: with a fresh snapshot in the store the
health check leaves the store exactly as it was. -/
theorem health_check_frame_witness :
    health_check 60 (some sampleApi) 1010 1 [sampleSavedRow] = [sampleSavedRow] :=
  health_check_frame 60 (some sampleApi) 1010 1 [sampleSavedRow]
    (Or.inl (by decide))

/-- Counterexample to C7 as stated: a health-check run with an empty store
and a reachable upstream persists the probed snapshot — the store is not
left unchanged. -/
theorem health_check_writes_on_cache_miss :
    health_check 60 (some sampleApi) 1000 0 [] ≠ [] := by decide

/-- Claim C5 (record only after confirmed send): per subscriber, the tick
performs eligibility check, data fetch, render, send and record strictly in
that order — whenever the record step ran at all, the trace is exactly that
sequence with a successful send — and a failed send leaves the user row,
hence `last_notification_sent`, unchanged; conversely any change of
`last_notification_sent` comes from a run of the record step. -/
theorem record_only_after_confirmed_send (tzdb : String → Option Int)
    (defaultTime defaultTz : String) (t : Int) (data : Nat → Option ResultData)
    (renderOk sendOk : Nat → Bool) (u : BotUser) :
    (Event.record ∈ (process_user tzdb defaultTime defaultTz t data renderOk sendOk u).1 →
      sendOk u.telegram_id = true ∧
      (process_user tzdb defaultTime defaultTz t data renderOk sendOk u).1 =
        [Event.eligibility true, Event.fetchData, Event.render true,
         Event.send true, Event.record]) ∧
    (sendOk u.telegram_id = false →
      (process_user tzdb defaultTime defaultTz t data renderOk sendOk u).2 = u) ∧
    ((process_user tzdb defaultTime defaultTz t data renderOk
        sendOk u).2.last_notification_sent ≠ u.last_notification_sent →
      Event.record ∈ (process_user tzdb defaultTime defaultTz t data renderOk sendOk u).1) := by
  unfold process_user send_daily_notification
  by_cases hs : should_send_notification tzdb defaultTime defaultTz u t
  · cases hd : data u.telegram_id with
    | none => simp [hs, hd]
    | some d =>
      cases hr : renderOk u.telegram_id with
      | false => simp [hs, hd, hr]
      | true =>
        cases hk : sendOk u.telegram_id with
        | false => simp [hs, hd, hr, hk]
        | true => simp [hs, hd, hr, hk]
  · simp [hs]

/-- Witness for C5: for an eligible subscriber whose send fails, the user
row is unchanged, and the trace of a successful run is exactly the ordered
sequence. -/
theorem record_only_after_confirmed_send_witness :
    (process_user tzdbJP ("09:00") ("UTC") 28800 (fun _ => some sampleResult)
        (fun _ => true) (fun _ => false) sampleUser).2 = sampleUser ∧
    (process_user tzdbJP ("09:00") ("UTC") 28800 (fun _ => some sampleResult)
        (fun _ => true) (fun _ => true) sampleUser).1 =
      [Event.eligibility true, Event.fetchData, Event.render true,
       Event.send true, Event.record] :=
  ⟨(record_only_after_confirmed_send tzdbJP ("09:00") ("UTC") 28800
      (fun _ => some sampleResult) (fun _ => true) (fun _ => false) sampleUser).2.1 rfl,
    ((record_only_after_confirmed_send tzdbJP ("09:00") ("UTC") 28800
      (fun _ => some sampleResult) (fun _ => true) (fun _ => true) sampleUser).1
      (by decide)).2⟩

/-- Claim C6 (isolation of per-subscriber failures): within one tick, the
outcome for the subscriber at any position of the subscribed-user list is
exactly that subscriber processed alone — whatever failures `data`,
`renderOk` or `sendOk` injected for the other subscribers, every other
eligible subscriber is still evaluated, sent to and recorded, because the
loop catches each failure and continues. -/
theorem per_subscriber_isolation (tzdb : String → Option Int)
    (defaultTime defaultTz : String) (t : Int) (data : Nat → Option ResultData)
    (renderOk sendOk : Nat → Bool) (users : List BotUser) (i : Nat) :
    (check_daily_notifications tzdb defaultTime defaultTz t data renderOk
        sendOk users)[i]? =
      ((users.filter (fun u => u.is_subscribed))[i]?).map
        (fun u => (process_user tzdb defaultTime defaultTz t data renderOk sendOk u).2) := by
  unfold check_daily_notifications
  generalize users.filter (fun u => u.is_subscribed) = l
  induction l generalizing i with
  | nil => simp [notification_loop]
  | cons u rest ih =>
    cases i with
    | zero => simp [notification_loop]
    | succ n => simpa [notification_loop] using ih n

/-- Counterexample to C8 as stated: the backup parser accepts the
out-of-range value 150 (domain 0..100) and returns a snapshot carrying it
verbatim, and the CNN parser does the same — neither treats it as a parse
failure. -/
theorem out_of_range_value_not_rejected :
    ¬ ((0 : Int) ≤ 150 ∧ (150 : Int) ≤ 100) ∧
    parse_backup_data ⟨some [⟨some ("150"), some ("Extreme Greed"), some ("")⟩]⟩ ≠ none ∧
    (parse_backup_data ⟨some [⟨some ("150"), some ("Extreme Greed"), some ("")⟩]⟩).map
        ApiData.current_value = some 150 ∧
    (parse_cnn_data (some ⟨some 150, some ("Extreme Greed"), some (""), none,
        none, none, none⟩)).map ApiData.current_value = some 150 :=
  ⟨by omega, by decide, by decide, by decide⟩

/-- Claim C8 amended: the parsers perform no domain-range validation at
all — any integer value present in a provider response, in range or not,
is passed through unchanged into the returned snapshot, neither rejected
nor clamped. -/
theorem parsers_pass_value_through :
    (∀ (fg : CnnFearGreed) (v : Int), fg.score = some v →
      (parse_cnn_data (some fg)).map ApiData.current_value = some v) ∧
    (∀ (e : BackupEntry) (rest : List BackupEntry) (s : String) (v : Int),
      e.value = some s → pyInt? s = some v →
      (parse_backup_data ⟨some (e :: rest)⟩).map ApiData.current_value = some v) := by
  constructor
  · intro fg v hv
    unfold parse_cnn_data
    simp [hv]
  · intro e rest s v hv hs
    unfold parse_backup_data
    simp [hv, hs]

/-- Witness for the amended C8: both parsers pass the out-of-range value
150 through. -/
theorem parsers_pass_value_through_witness :
    (parse_cnn_data (some ⟨some 150, none, none, none, none, none, none⟩)).map
        ApiData.current_value = some 150 ∧
    (parse_backup_data ⟨some [⟨some ("150"), none, none⟩]⟩).map
        ApiData.current_value = some 150 :=
  ⟨parsers_pass_value_through.1 ⟨some 150, none, none, none, none, none, none⟩ 150 rfl,
    parsers_pass_value_through.2 ⟨some ("150"), none, none⟩ [] "150" 150 rfl (by decide)⟩

/-- Claim C10 (singleton fetcher freezes the first freshness window): in
any sequence of `get_smart_fetcher` calls starting from an empty global,
every caller receives the fetcher configured with the first call and its
`cache_timeout_minutes`; all later arguments are ignored.  In the
repository the scheduler asks for 60 while the module-level convenience
functions ask for the default 30, so whichever runs first fixes the window
for all of them. -/
theorem smart_fetcher_first_call_wins (a : Nat) (rest : List Nat) :
    smart_fetcher_calls none (a :: rest) = List.replicate (rest.length + 1) a := by
  have haux : ∀ (l : List Nat) (v : Nat),
      smart_fetcher_calls (some v) l = List.replicate l.length v := by
    intro l
    induction l with
    | nil => intro v; rfl
    | cons b bs ih =>
      intro v
      simp [smart_fetcher_calls, get_smart_fetcher, ih, List.replicate]
  simp [smart_fetcher_calls, get_smart_fetcher, haux, List.replicate]

end GreedBot
